import Mathlib

/-!
# xxl-job executor: task-lifecycle engine (`src/executor.go`)

A shallow embedding of the executor of `src/executor.go`.

* Go pointers `*Task` are addresses (`Ptr`) into an explicit heap, so that two
  map entries holding the same pointer share one `Task` object, as in Go.
* Go maps are finite partial functions `K → Option V`.
* Every handler is a function from the executor state (and the inputs the
  environment supplies: the request pointer that decoding leaves, nil included,
  and the result of an HTTP POST) to the new state and the list of effects it
  performed, in program order.
* `int64` job ids and status codes are `Int`: the code only stores, compares and
  prints them, no arithmetic is done on them.
-/

namespace xxl

/-- Address of a `Task` object (`*Task`). -/
abbrev Ptr := Nat

/-- Identity of a cancellable context made by `context.WithCancel`. -/
abbrev Ctx := Nat

/-- A registered job body (`TaskFunc`): supplied by the embedding application,
only its identity matters to the engine. -/
abbrev TaskFunc := Nat

/-- Modelled from the spec: the declaration of `RunReq` is not under src; a
start request carries `{jobId, handlerName, ...params}`. `JobID` and
`ExecutorHandler` are the two fields `runTask` reads; the remaining parameters
are kept as one value. -/
structure RunReq where
  JobID : Int
  ExecutorHandler : String
  ExecutorParams : String
deriving DecidableEq, Repr

/-- Modelled from the spec: the declaration of `killReq` is not under src; a
kill request carries `{jobId}`, the field `killTask` reads. -/
structure killReq where
  JobID : Int
deriving DecidableEq, Repr

/-- Modelled from the spec: the declaration of `Registry` is not under src; the
heartbeat message `{group, key, value}`, with the three fields
`executor.registry` sets. -/
structure Registry where
  RegistryGroup : String
  RegistryKey : String
  RegistryValue : String
deriving DecidableEq, Repr

/-- Modelled from the spec: the declaration of `Options` is not under src; the
configuration the core consumes, with the four fields `src/executor.go`
reads. -/
structure Options where
  ServerAddr : String
  ExecutorIp : String
  ExecutorPort : String
  RegistryKey : String
deriving DecidableEq, Repr

/-- Modelled from the spec: the declaration of `Task` is not under src; a task
instance `{jobId, name, params, cancelHandle, body}`, with the six fields
`src/executor.go` reads and writes. `Param` is a `*RunReq` and `Ext`, `Cancel`
come from `context.WithCancel`; all three are nil (`none`) in a freshly
registered task. -/
structure Task where
  Id : Int
  Name : String
  Ext : Option Ctx
  Param : Option RunReq
  fn : TaskFunc
  Cancel : Option Ctx
deriving DecidableEq, Repr

/-- Bytes written to a response or posted to the scheduling center, kept as the
call that builds them (the encoders live outside `src/executor.go`). -/
inductive Payload where
  | call (req : Option RunReq) (code : Int)
  | general
  | kill (req : killReq) (code : Int)
  | registry (req : Registry)
deriving DecidableEq, Repr

/-- Modelled from the spec: `returnCall` is not under src; it builds the
callback/failure payload for a run request with the given status code. -/
def returnCall (req : Option RunReq) (code : Int) : Payload := Payload.call req code

/-- Modelled from the spec: `returnGeneral` is not under src; it builds the
generic success payload. -/
def returnGeneral : Payload := Payload.general

/-- Modelled from the spec: `returnKill` is not under src; it builds the kill
failure payload with the given status code. -/
def returnKill (req : killReq) (code : Int) : Payload := Payload.kill req code

/-- Modelled from the spec: `Int64ToStr` is not under src; decimal rendering of
a job id for the log lines. -/
def Int64ToStr (i : Int) : String := toString i

/-- The status code carried by a payload, when it has one. -/
def Payload.code : Payload → Option Int
  | Payload.call _ c => some c
  | Payload.kill _ c => some c
  | Payload.general => none
  | Payload.registry _ => none

/-- How a task body ended (the body is caller-supplied code). -/
inductive BodyOutcome where
  | succeeded
  | failed
deriving DecidableEq, Repr

/-- Result of `http.Post` followed by reading the response body.
`ok body`: `err == nil`, the response is non-nil.
`err msg`: a transport error; net/http then returns a nil `*Response`. -/
inductive PostResult where
  | ok (body : String)
  | err (msg : String)
deriving DecidableEq, Repr

/-- One effect of the executor, in program order. `regExists`, `regGet` are the
calls `e.Exists`, `e.Get` on the task registry; `runIs`, `runGet`, `runSet`,
`runDel` are the calls `e.IsRun`, `e.GetRunTask`, `e.SetRunTask`,
`e.DelRunTask` on the running table; `taskWrite` is an assignment to fields of
a `Task` through its pointer; `goRun` is the statement `go task.Run(...)`. -/
inductive Event where
  | lock
  | unlock
  | readBody
  | write (p : Payload)
  | log (msg : String)
  | print (msg : String)
  | cancel (c : Ctx)
  | regExists (key : String)
  | regGet (key : String)
  | taskWrite (task : Ptr) (field : String)
  | runSet (jobId : Int) (task : Ptr)
  | runIs (jobId : Int)
  | runGet (jobId : Int)
  | runDel (jobId : Int)
  | goRun (task : Ptr)
  | goRegistry
  | body (task : Ptr) (o : BodyOutcome)
  | post (url : String) (p : Payload)
  | closeBody
  | timerNew (secs : Nat)
  | timerFire
  | timerReset (secs : Nat)
  | timerStop
  | fatal (msg : String)
  | panic (why : String)
deriving DecidableEq, Repr

/-- The executor (`executor` with its embedded `taskList`), together with the
part of the Go runtime its handlers touch: the heap holding the `Task` objects
and the supply of fresh contexts. -/
structure executor where
  opts : Options
  address : String
  data : String → Option Ptr
  runList : Int → Option Ptr
  heap : Ptr → Task
  nextPtr : Ptr
  nextCtx : Ctx

/-- The zero value `Task{}` with `fn` set, as `RegTask` builds it. -/
def Task.new (fn : TaskFunc) : Task :=
  { Id := 0, Name := "", Ext := none, Param := none, fn := fn, Cancel := none }

/-- Writing through a pointer: `*p = t`. -/
def executor.store (e : executor) (p : Ptr) (t : Task) : executor :=
  { e with heap := fun q => if q = p then t else e.heap q }

/-- Modelled from the spec: `taskList.Set` is not under src;
`register(name, body)` inserts or overwrites a definition. -/
def executor.Set (e : executor) (key : String) (val : Ptr) : executor :=
  { e with data := fun k => if k = key then some val else e.data k }

/-- Modelled from the spec: `taskList.Get` is not under src;
`lookup(name) -> TaskDefinition | not-found`. The registry is a
`map[string]*Task` (`Init`), so the lookup yields the registered pointer. -/
def executor.Get (e : executor) (key : String) : Option Ptr := e.data key

/-- Modelled from the spec: `taskList.Exists` is not under src;
`exists(name) -> bool`. -/
def executor.Exists (e : executor) (key : String) : Bool := (e.data key).isSome

/-- Modelled from the spec: `taskList.SetRunTask` is not under src;
`put(jobId, instance)`, overwriting any prior entry for that id. -/
def executor.SetRunTask (e : executor) (jobId : Int) (val : Ptr) : executor :=
  { e with runList := fun k => if k = jobId then some val else e.runList k }

/-- Modelled from the spec: `taskList.GetRunTask` is not under src;
`get(jobId) -> instance | not-found`. -/
def executor.GetRunTask (e : executor) (jobId : Int) : Option Ptr := e.runList jobId

/-- Modelled from the spec: `taskList.IsRun` is not under src;
`contains(jobId) -> bool`. -/
def executor.IsRun (e : executor) (jobId : Int) : Bool := (e.runList jobId).isSome

/-- Modelled from the spec: `taskList.DelRunTask` is not under src;
`remove(jobId)`. -/
def executor.DelRunTask (e : executor) (jobId : Int) : executor :=
  { e with runList := fun k => if k = jobId then none else e.runList k }

/-- `newExecutor`: an executor holding the given options; its maps are nil
until `Init` and no task object exists yet. -/
def newExecutor (options : Options) : executor :=
  { opts := options, address := "", data := fun _ => none, runList := fun _ => none,
    heap := fun _ => Task.new 0, nextPtr := 0, nextCtx := 0 }

/-- `executor.Init`: apply the options, make both maps empty, compute the
address, start the registrar. -/
def executor.Init (e : executor) (opts : List (Options → Options)) : executor × List Event :=
  let o := opts.foldl (fun acc f => f acc) e.opts
  ({ e with opts := o, data := fun _ => none, runList := fun _ => none,
            address := o.ExecutorIp ++ ":" ++ o.ExecutorPort },
   [Event.goRegistry])

/-- `executor.RegTask`: allocate `&Task{}`, set its body, register it. -/
def executor.RegTask (e : executor) (pattern : String) (task : TaskFunc) : executor :=
  let t := e.nextPtr
  let e1 := { e.store t (Task.new task) with nextPtr := e.nextPtr + 1 }
  e1.Set pattern t

/-- `executor.runTask` (lines 80-102). `req` is what `json.Unmarshal(req, &param)`
leaves in `param`, a `*RunReq`: `none` is the nil pointer (the body is the JSON
literal `null`), `some r` a request (the zero-valued one when the body does not
decode). On nil, evaluating `param.ExecutorHandler` at line 86 panics before
anything is written or logged. The unlock is deferred, so it is the last
effect on every path, a panic included. -/
def executor.runTask (e : executor) (req : Option RunReq) : executor × List Event :=
  match req with
  | none =>
    (e, [Event.lock, Event.readBody, Event.panic "nil pointer dereference", Event.unlock])
  | some param =>
    if !e.Exists param.ExecutorHandler then
      (e, [Event.lock, Event.readBody,
           Event.regExists param.ExecutorHandler,
           Event.write (returnCall (some param) 500),
           Event.log
             ("任务[" ++ Int64ToStr param.JobID ++ "]没有注册:" ++ param.ExecutorHandler),
           Event.unlock])
    else
      match e.Get param.ExecutorHandler with
      | none =>
        (e, [Event.lock, Event.readBody,
             Event.regExists param.ExecutorHandler, Event.regGet param.ExecutorHandler,
             Event.panic "nil pointer dereference", Event.unlock])
      | some task =>
        let c := e.nextCtx
        let e1 := { e with nextCtx := e.nextCtx + 1 }
        let e2 := e1.store task { e1.heap task with Ext := some c, Cancel := some c }
        let e3 := e2.store task { e2.heap task with Id := param.JobID }
        let e4 := e3.store task { e3.heap task with Name := param.ExecutorHandler }
        let e5 := e4.store task { e4.heap task with Param := some param }
        let e6 := e5.SetRunTask param.JobID task
        (e6, [Event.lock, Event.readBody,
              Event.regExists param.ExecutorHandler, Event.regGet param.ExecutorHandler,
              Event.taskWrite task "Ext, Cancel", Event.taskWrite task "Id",
              Event.taskWrite task "Name", Event.taskWrite task "Param",
              Event.runSet param.JobID task,
              Event.goRun task,
              Event.log
                ("任务[" ++ Int64ToStr param.JobID ++ "]开始执行:" ++ param.ExecutorHandler),
              Event.write returnGeneral,
              Event.unlock])

/-- `executor.killTask` (lines 105-120). `req` is what
`json.Unmarshal(req, &param)` leaves in `param`, a `*killReq`: `none` is the nil
pointer (the body is the JSON literal `null`), `some r` a request (the
zero-valued one when the body does not decode). On nil, evaluating
`param.JobID` at line 111 panics before anything is written or logged. The
unlock is deferred, so it is the last effect on every path, a panic included. -/
def executor.killTask (e : executor) (req : Option killReq) : executor × List Event :=
  match req with
  | none =>
    (e, [Event.lock, Event.readBody, Event.panic "nil pointer dereference", Event.unlock])
  | some param =>
    if !e.IsRun param.JobID then
      (e, [Event.lock, Event.readBody,
           Event.runIs param.JobID,
           Event.write (returnKill param 500),
           Event.log ("任务[" ++ Int64ToStr param.JobID ++ "]没有运行"),
           Event.unlock])
    else
      match e.GetRunTask param.JobID with
      | none =>
        (e, [Event.lock, Event.readBody, Event.runIs param.JobID, Event.runGet param.JobID,
             Event.panic "nil pointer dereference", Event.unlock])
      | some task =>
        match (e.heap task).Cancel with
        | none =>
          (e, [Event.lock, Event.readBody, Event.runIs param.JobID, Event.runGet param.JobID,
               Event.panic "call of nil func", Event.unlock])
        | some c =>
          (e.DelRunTask param.JobID,
           [Event.lock, Event.readBody, Event.runIs param.JobID, Event.runGet param.JobID,
            Event.cancel c, Event.runDel param.JobID, Event.write returnGeneral,
            Event.unlock])

/-- `executor.callback` (lines 159-167). `res` is what `http.Post` gave. On a
transport error the response is nil, so reading `res.Body` panics. -/
def executor.callback (e : executor) (task : Ptr) (res : PostResult) : List Event :=
  Event.post (e.opts.ServerAddr ++ "/api/callback") (returnCall (e.heap task).Param 200) ::
    match res with
    | PostResult.err msg => [Event.print msg, Event.panic "nil pointer dereference"]
    | PostResult.ok body => [Event.log ("任务回调成功:" ++ body)]

/-- The completion continuation `func() { e.callback(task) }` that `runTask`
hands to `task.Run` (lines 97-99). It takes no argument. -/
def executor.continuation (e : executor) (task : Ptr) (res : PostResult) :
    executor × List Event :=
  (e, e.callback task res)

/-- Modelled from the spec: `Task.Run` is not under src; the body runs, and the
continuation runs after the body returns, whatever the body's outcome. The body
gets the context and the parameters only, not the executor. -/
def Task.Run (e : executor) (task : Ptr) (o : BodyOutcome)
    (callback : executor → executor × List Event) : executor × List Event :=
  let r := callback e
  (r.1, Event.body task o :: r.2)

/-- The goroutine started by `go task.Run(func() { e.callback(task) })`. -/
def executor.goRun (e : executor) (task : Ptr) (o : BodyOutcome) (res : PostResult) :
    executor × List Event :=
  Task.Run e task o (fun e1 => e1.continuation task res)

/-- The `for` loop of `executor.registry` (lines 145-155), run against the
results of the successive POSTs. The observation ends when the list does. -/
def executor.registryLoop (e : executor) (param : Payload) : List PostResult → List Event
  | [] => []
  | PostResult.err msg :: _ =>
    [Event.timerFire, Event.post (e.opts.ServerAddr ++ "/api/registry") param,
     Event.print msg, Event.panic "nil pointer dereference", Event.timerStop]
  | PostResult.ok body :: rest =>
    [Event.timerFire, Event.post (e.opts.ServerAddr ++ "/api/registry") param,
     Event.log ("执行器注册成功:" ++ body), Event.closeBody, Event.timerReset 20] ++
      e.registryLoop param rest

/-- `executor.registry` (lines 132-156). `marshalErr` is the error of
`json.Marshal`, if any; `posts` are the results of the successive POSTs. -/
def executor.registry (e : executor) (marshalErr : Option String) (posts : List PostResult) :
    List Event :=
  Event.timerNew 0 ::
    match marshalErr with
    | some msg => [Event.fatal ("执行器注册失败:" ++ msg)]
    | none =>
      e.registryLoop
        (Payload.registry
          { RegistryGroup := "EXECUTOR", RegistryKey := e.opts.RegistryKey,
            RegistryValue := "http://" ++ e.address })
        posts

/-! ## Observers on effect lists and states -/

/-- The payloads written to the response, in order. -/
def written : List Event → List Payload
  | [] => []
  | Event.write p :: rest => p :: written rest
  | _ :: rest => written rest

/-- The contexts whose cancel function was called, in order. -/
def cancelled : List Event → List Ctx
  | [] => []
  | Event.cancel c :: rest => c :: cancelled rest
  | _ :: rest => cancelled rest

/-- The tasks whose body was handed to a new goroutine, in order. -/
def dispatched : List Event → List Ptr
  | [] => []
  | Event.goRun t :: rest => t :: dispatched rest
  | _ :: rest => dispatched rest

/-- The payloads posted to the scheduling center, in order. -/
def posted : List Event → List Payload
  | [] => []
  | Event.post _ p :: rest => p :: posted rest
  | _ :: rest => posted rest

/-- The status codes of the posted payloads, in order. -/
def postedCodes (evs : List Event) : List (Option Int) := (posted evs).map Payload.code

/-- The effects that happened while the lock was held; `held` says whether it
is held when the list starts. -/
def underLock : Bool → List Event → List Event
  | _, [] => []
  | _, Event.lock :: rest => underLock true rest
  | _, Event.unlock :: rest => underLock false rest
  | held, ev :: rest => if held then ev :: underLock held rest else underLock held rest

/-- The instance the running table holds for a job id, read through the stored
pointer. -/
def executor.running (e : executor) (jobId : Int) : Option Task :=
  (e.runList jobId).map e.heap

/-! ## Concrete scenario data -/

/-- Options of the demo executor. -/
def demoOpts : Options :=
  { ServerAddr := "http://admin", ExecutorIp := "127.0.0.1", ExecutorPort := "9999",
    RegistryKey := "demo" }

/-- A fresh executor after `Init`, with the handler "demoTask" registered. -/
def demoExecutor : executor := (((newExecutor demoOpts).Init []).1).RegTask "demoTask" 7

/-- The demo executor with a second handler "otherTask" registered. -/
def demoExecutor2 : executor := demoExecutor.RegTask "otherTask" 8

/-- Start request: job 1001, handler "demoTask". -/
def start1001 : RunReq := { JobID := 1001, ExecutorHandler := "demoTask", ExecutorParams := "a" }

/-- Start request: job 2002, handler "demoTask" (the same handler as job 1001). -/
def start2002 : RunReq := { JobID := 2002, ExecutorHandler := "demoTask", ExecutorParams := "b" }

/-- Start request: job 3003, handler "missingTask", which is not registered. -/
def startMissing : RunReq :=
  { JobID := 3003, ExecutorHandler := "missingTask", ExecutorParams := "" }

end xxl

namespace xxl

/-! ## runTask and killTask on requests that name nothing known -/

/-- C1, as stated, fails: a start request whose body is the JSON literal `null`
names no registered handler, yet `runTask` writes no response at all: the
decoded request pointer is nil and reading its handler name panics. -/
theorem runTask_null_body_writes_nothing :
    (demoExecutor.runTask none).2
        = [Event.lock, Event.readBody, Event.panic "nil pointer dereference", Event.unlock]
      ∧ written (demoExecutor.runTask none).2 = [] := by
  decide

/-- C1, amended: for every executor state and every start request that names no
registered handler (the request pointer is nil, or its handler name is not in
the task registry), `runTask` leaves the executor (in particular the running
table) as it was and dispatches no task body; when the request pointer is not
nil, `runTask` writes exactly the failure response built with code 500. -/
theorem runTask_unregistered (e : executor) (req : Option RunReq)
    (h : ∀ p, req = some p → e.data p.ExecutorHandler = none) :
    (∀ p, req = some p →
        written (e.runTask req).2 = [returnCall (some p) 500]
          ∧ (returnCall (some p) 500).code = some 500)
      ∧ (e.runTask req).1.runList = e.runList
      ∧ (e.runTask req).1 = e
      ∧ dispatched (e.runTask req).2 = [] := by
  cases req with
  | none => simp [executor.runTask, dispatched]
  | some param =>
    have hp := h param rfl
    simp [executor.runTask, executor.Exists, hp, written, dispatched, returnCall,
      Payload.code]

/-- C1, amended, at a concrete input: job 3003 names "missingTask" on the demo
executor. -/
theorem runTask_unregistered_witness :
    demoExecutor.data startMissing.ExecutorHandler = none
      ∧ written (demoExecutor.runTask (some startMissing)).2
          = [returnCall (some startMissing) 500]
      ∧ (returnCall (some startMissing) 500).code = some 500
      ∧ (demoExecutor.runTask (some startMissing)).1.runList = demoExecutor.runList
      ∧ (demoExecutor.runTask (some startMissing)).1 = demoExecutor
      ∧ dispatched (demoExecutor.runTask (some startMissing)).2 = [] :=
  have w := runTask_unregistered demoExecutor (some startMissing)
    (fun p hp => by cases hp; decide)
  ⟨by decide, (w.1 startMissing rfl).1, (w.1 startMissing rfl).2, w.2.1, w.2.2.1, w.2.2.2⟩

/-- C2, as stated, fails: a kill request whose body is the JSON literal `null`
names no running job, yet `killTask` writes no response at all: the decoded
request pointer is nil and reading its job id panics. -/
theorem killTask_null_body_writes_nothing :
    (demoExecutor.killTask none).2
        = [Event.lock, Event.readBody, Event.panic "nil pointer dereference", Event.unlock]
      ∧ written (demoExecutor.killTask none).2 = [] := by
  decide

/-- C2, amended: for every executor state and every kill request that names no
running job (the request pointer is nil, or its job id is not in the running
table), `killTask` calls no cancel function and leaves the executor (the
running table and the task registry) unchanged; when the request pointer is
not nil, `killTask` writes exactly the failure response built with code 500. -/
theorem killTask_unknown_job (e : executor) (req : Option killReq)
    (h : ∀ p, req = some p → e.runList p.JobID = none) :
    (∀ p, req = some p →
        written (e.killTask req).2 = [returnKill p 500]
          ∧ (returnKill p 500).code = some 500)
      ∧ cancelled (e.killTask req).2 = []
      ∧ (e.killTask req).1.runList = e.runList
      ∧ (e.killTask req).1.data = e.data
      ∧ (e.killTask req).1 = e := by
  cases req with
  | none => simp [executor.killTask, cancelled]
  | some param =>
    have hp := h param rfl
    simp [executor.killTask, executor.IsRun, hp, written, cancelled, returnKill,
      Payload.code]

/-- C2, amended, at a concrete input: job 1001 was never started on the demo
executor. -/
theorem killTask_unknown_job_witness :
    demoExecutor.runList (killReq.mk 1001).JobID = none
      ∧ written (demoExecutor.killTask (some (killReq.mk 1001))).2
          = [returnKill (killReq.mk 1001) 500]
      ∧ (returnKill (killReq.mk 1001) 500).code = some 500
      ∧ cancelled (demoExecutor.killTask (some (killReq.mk 1001))).2 = []
      ∧ (demoExecutor.killTask (some (killReq.mk 1001))).1.runList = demoExecutor.runList
      ∧ (demoExecutor.killTask (some (killReq.mk 1001))).1.data = demoExecutor.data
      ∧ (demoExecutor.killTask (some (killReq.mk 1001))).1 = demoExecutor :=
  have w := killTask_unknown_job demoExecutor (some (killReq.mk 1001))
    (fun p hp => by cases hp; decide)
  ⟨by decide, (w.1 (killReq.mk 1001) rfl).1, (w.1 (killReq.mk 1001) rfl).2, w.2.1, w.2.2.1,
    w.2.2.2.1, w.2.2.2.2⟩

/-! ## start followed by kill -/

/-- C3: for every registered handler name and every job id, `runTask` followed
immediately by `killTask` for the same job id writes the generic success
response both times, leaves the running table without an entry for the job
id, and calls the cancel function of the context created by that start exactly
once (and no other); a further `killTask` for the same job id writes the
code-500 failure response, cancels nothing and leaves the executor as it was. -/
theorem start_kill_kill (e : executor) (param : RunReq)
    (h : e.Exists param.ExecutorHandler = true) :
    written (e.runTask (some param)).2 = [returnGeneral]
      ∧ written ((e.runTask (some param)).1.killTask (some (killReq.mk param.JobID))).2 = [returnGeneral]
      ∧ ((e.runTask (some param)).1.killTask (some (killReq.mk param.JobID))).1.runList param.JobID = none
      ∧ ((e.runTask (some param)).1.running param.JobID).bind Task.Cancel = some e.nextCtx
      ∧ (e.runTask (some param)).1.nextCtx = e.nextCtx + 1
      ∧ cancelled ((e.runTask (some param)).2
          ++ ((e.runTask (some param)).1.killTask (some (killReq.mk param.JobID))).2) = [e.nextCtx]
      ∧ written ((((e.runTask (some param)).1.killTask (some (killReq.mk param.JobID))).1.killTask (some (killReq.mk param.JobID))).2) = [returnKill (killReq.mk param.JobID) 500]
      ∧ (returnKill (killReq.mk param.JobID) 500).code = some 500
      ∧ cancelled ((((e.runTask (some param)).1.killTask (some (killReq.mk param.JobID))).1.killTask (some (killReq.mk param.JobID))).2) = []
      ∧ (((e.runTask (some param)).1.killTask (some (killReq.mk param.JobID))).1.killTask (some (killReq.mk param.JobID))).1
          = ((e.runTask (some param)).1.killTask (some (killReq.mk param.JobID))).1 := by
  obtain ⟨t, ht⟩ : ∃ t, e.data param.ExecutorHandler = some t := by
    cases hd : e.data param.ExecutorHandler with
    | none => simp [executor.Exists, hd] at h
    | some t => exact ⟨t, rfl⟩
  simp [executor.runTask, executor.killTask, executor.Exists, executor.Get, executor.IsRun,
    executor.GetRunTask, executor.SetRunTask, executor.DelRunTask, executor.store,
    executor.running, ht, written, cancelled, returnGeneral, returnKill, Payload.code]

/-- C3, at a concrete input: job 1001 with the registered handler "demoTask". -/
theorem start_kill_kill_witness :
    demoExecutor.Exists start1001.ExecutorHandler = true
      ∧ written (demoExecutor.runTask (some start1001)).2 = [returnGeneral]
      ∧ written ((demoExecutor.runTask (some start1001)).1.killTask (some (killReq.mk start1001.JobID))).2 = [returnGeneral]
      ∧ ((demoExecutor.runTask (some start1001)).1.killTask (some (killReq.mk start1001.JobID))).1.runList start1001.JobID = none
      ∧ ((demoExecutor.runTask (some start1001)).1.running start1001.JobID).bind Task.Cancel
          = some demoExecutor.nextCtx
      ∧ (demoExecutor.runTask (some start1001)).1.nextCtx = demoExecutor.nextCtx + 1
      ∧ cancelled ((demoExecutor.runTask (some start1001)).2
          ++ ((demoExecutor.runTask (some start1001)).1.killTask (some (killReq.mk start1001.JobID))).2)
          = [demoExecutor.nextCtx]
      ∧ written ((((demoExecutor.runTask (some start1001)).1.killTask (some (killReq.mk start1001.JobID))).1.killTask (some (killReq.mk start1001.JobID))).2)
          = [returnKill (killReq.mk start1001.JobID) 500]
      ∧ (returnKill (killReq.mk start1001.JobID) 500).code = some 500
      ∧ cancelled ((((demoExecutor.runTask (some start1001)).1.killTask (some (killReq.mk start1001.JobID))).1.killTask (some (killReq.mk start1001.JobID))).2) = []
      ∧ (((demoExecutor.runTask (some start1001)).1.killTask (some (killReq.mk start1001.JobID))).1.killTask (some (killReq.mk start1001.JobID))).1
          = ((demoExecutor.runTask (some start1001)).1.killTask (some (killReq.mk start1001.JobID))).1 :=
  ⟨by decide, start_kill_kill demoExecutor start1001 (by decide)⟩

/-! ## Two starts that name the same handler -/

/-- Two starts with distinct job ids whose handlers are registered under
distinct task objects, from an empty running table: the table then holds
exactly the two job ids, each with the Id and parameters of its own request. -/
theorem two_starts_distinct_tasks (e : executor) (p1 p2 : RunReq) (t1 t2 : Ptr)
    (h1 : e.data p1.ExecutorHandler = some t1) (h2 : e.data p2.ExecutorHandler = some t2)
    (ht : t1 ≠ t2) (hj : p1.JobID ≠ p2.JobID) (hrun : ∀ k, e.runList k = none) :
    (∀ k, (((e.runTask (some p1)).1.runTask (some p2)).1.runList k).isSome = true
        ↔ (k = p1.JobID ∨ k = p2.JobID))
      ∧ (((e.runTask (some p1)).1.runTask (some p2)).1.running p1.JobID).map Task.Id = some p1.JobID
      ∧ (((e.runTask (some p1)).1.runTask (some p2)).1.running p1.JobID).bind Task.Param = some p1
      ∧ (((e.runTask (some p1)).1.runTask (some p2)).1.running p2.JobID).map Task.Id = some p2.JobID
      ∧ (((e.runTask (some p1)).1.runTask (some p2)).1.running p2.JobID).bind Task.Param = some p2 := by
  have hj2 : p2.JobID ≠ p1.JobID := fun h => hj h.symm
  have ht2 : t2 ≠ t1 := fun h => ht h.symm
  refine ⟨fun k => ?_, ?_, ?_, ?_, ?_⟩
  · by_cases hk2 : k = p2.JobID
    · simp [executor.runTask, executor.Exists, executor.Get, executor.SetRunTask,
        executor.store, h1, h2, hk2]
    · by_cases hk1 : k = p1.JobID
      · simp [executor.runTask, executor.Exists, executor.Get, executor.SetRunTask,
          executor.store, h1, h2, hk1, hj]
      · simp [executor.runTask, executor.Exists, executor.Get, executor.SetRunTask,
          executor.store, h1, h2, hk1, hk2, hrun]
  all_goals
    simp [executor.runTask, executor.Exists, executor.Get, executor.SetRunTask,
      executor.store, executor.running, h1, h2, hj, hj2, ht, ht2]

/-- The previous statement at a concrete input: job 1001 with "demoTask" and
job 3003 with "otherTask". -/
theorem two_starts_distinct_tasks_witness :
    (∀ k, (((demoExecutor2.runTask (some start1001)).1.runTask
          (some { startMissing with ExecutorHandler := "otherTask" })).1.runList k).isSome = true
        ↔ (k = 1001 ∨ k = 3003)) :=
  (two_starts_distinct_tasks demoExecutor2 start1001
    { startMissing with ExecutorHandler := "otherTask" } 0 1
    (by decide) (by decide) (by decide) (by decide) (fun _ => rfl)).1

/-- C4, evaluated: "demoTask" is registered once; job 1001 and then job 2002
are started with it. Both running-table entries hold the same pointer, and the
instance read under job 1001 has Id 2002 and the parameters of the job 2002
request. In the other order the instance under job 2002 has Id 1001. -/
theorem two_starts_same_handler_share_instance :
    ((demoExecutor.runTask (some start1001)).1.runTask (some start2002)).1.runList 1001 = some 0
      ∧ ((demoExecutor.runTask (some start1001)).1.runTask (some start2002)).1.runList 2002 = some 0
      ∧ (((demoExecutor.runTask (some start1001)).1.runTask (some start2002)).1.running 1001).map Task.Id
          = some 2002
      ∧ (((demoExecutor.runTask (some start1001)).1.runTask (some start2002)).1.running 1001).bind Task.Param
          = some start2002
      ∧ (((demoExecutor.runTask (some start2002)).1.runTask (some start1001)).1.running 2002).map Task.Id
          = some 1001
      ∧ (((demoExecutor.runTask (some start2002)).1.runTask (some start1001)).1.running 2002).bind Task.Param
          = some start1001 := by
  decide

/-- C5, evaluated: job 1001 then job 2002 are started with the one registered
"demoTask". The start of job 1001 created context 0, the start of job 2002
created context 1; `killTask` for job 1001 then cancels context 1 and not
context 0. -/
theorem kill_cancels_other_jobs_context :
    ((demoExecutor.runTask (some start1001)).1.running 1001).bind Task.Cancel = some 0
      ∧ (((demoExecutor.runTask (some start1001)).1.runTask (some start2002)).1.running 2002).bind
          Task.Cancel = some 1
      ∧ cancelled ((((demoExecutor.runTask (some start1001)).1.runTask (some start2002)).1.killTask (some (killReq.mk 1001))).2) = [1] := by
  decide

/-! ## Completion of a task body -/

/-- C6, evaluated: job 1001 is started, its goroutine runs the body and the
continuation (the callback POST succeeds). The running table still holds job
1001, and a later `killTask` for it writes the generic success response. -/
theorem finished_job_stays_in_running_table :
    dispatched (demoExecutor.runTask (some start1001)).2 = [0]
      ∧ ((demoExecutor.runTask (some start1001)).1.goRun 0 BodyOutcome.succeeded
          (PostResult.ok "")).1.runList 1001 = some 0
      ∧ written ((((demoExecutor.runTask (some start1001)).1.goRun 0 BodyOutcome.succeeded
          (PostResult.ok "")).1.killTask (some (killReq.mk 1001))).2) = [returnGeneral] := by
  decide

/-- C7, as stated, fails: for the dispatched instance of job 1001 the callback
carries status code 200 when the body succeeded and the same 200 when the body
failed. -/
theorem callback_code_same_for_both_outcomes :
    postedCodes ((demoExecutor.runTask (some start1001)).1.goRun 0 BodyOutcome.succeeded
        (PostResult.ok "")).2 = [some 200]
      ∧ postedCodes ((demoExecutor.runTask (some start1001)).1.goRun 0 BodyOutcome.failed
        (PostResult.ok "")).2 = [some 200] := by
  decide

/-- C7, amended: for every executor state, every dispatched task, every outcome
of its body and every result of the POST, `callback` posts exactly one message,
the one built by `returnCall` from the parameters of the task and the constant
200; the goroutine of the task posts that message and no other, so the status
code is 200 whatever the outcome of the body. -/
theorem callback_code_is_always_200 (e : executor) (task : Ptr) (o : BodyOutcome)
    (res : PostResult) :
    posted (e.callback task res) = [returnCall (e.heap task).Param 200]
      ∧ posted (e.goRun task o res).2 = [returnCall (e.heap task).Param 200]
      ∧ postedCodes (e.goRun task o res).2 = [some 200] := by
  cases res <;>
    simp [executor.goRun, Task.Run, executor.continuation, executor.callback, posted,
      postedCodes, returnCall, Payload.code]

/-! ## Outbound calls that fail -/

/-- C8, evaluated: the first POST of the registrar fails with a transport
error. The first attempt is made at once (timer of 0 seconds); the error is
printed, then the nil response is dereferenced: the loop ends in a panic, the
timer is not re-armed and no second attempt is made. -/
theorem registry_panics_on_failed_post :
    demoExecutor.registry none [PostResult.err "connection refused", PostResult.ok ""]
      = [Event.timerNew 0, Event.timerFire,
         Event.post "http://admin/api/registry"
           (Payload.registry
             { RegistryGroup := "EXECUTOR", RegistryKey := "demo",
               RegistryValue := "http://127.0.0.1:9999" }),
         Event.print "connection refused", Event.panic "nil pointer dereference",
         Event.timerStop] := by
  decide

/-- C9, evaluated: the callback POST for the dispatched job 1001 fails with a
transport error. The error is printed, then the nil response is dereferenced:
`callback` ends in a panic, which leaves the completion continuation. -/
theorem callback_panics_on_failed_post :
    (demoExecutor.runTask (some start1001)).1.callback 0 (PostResult.err "connection refused")
      = [Event.post "http://admin/api/callback" (returnCall (some start1001) 200),
         Event.print "connection refused", Event.panic "nil pointer dereference"]
      ∧ ((demoExecutor.runTask (some start1001)).1.continuation 0
          (PostResult.err "connection refused")).2.getLast?
          = some (Event.panic "nil pointer dereference") := by
  decide

/-! ## Lock discipline -/

/-- C10, as stated, fails: in `runTask` for job 1001 the request body is read,
the task is dispatched and the response is written while the lock is held; in
`killTask` for an unknown job the request body is read and the response is
written while the lock is held. -/
theorem lock_held_across_request_and_response :
    underLock false (demoExecutor.runTask (some start1001)).2
        = [Event.readBody, Event.regExists "demoTask", Event.regGet "demoTask",
           Event.taskWrite 0 "Ext, Cancel", Event.taskWrite 0 "Id",
           Event.taskWrite 0 "Name", Event.taskWrite 0 "Param",
           Event.runSet 1001 0, Event.goRun 0,
           Event.log "任务[1001]开始执行:demoTask", Event.write returnGeneral]
      ∧ underLock false (demoExecutor.killTask (some (killReq.mk 1001))).2
        = [Event.readBody, Event.runIs 1001, Event.write (returnKill (killReq.mk 1001) 500),
           Event.log "任务[1001]没有运行"] := by
  decide

/-- C10, amended: in the effects of `runTask` and of `killTask` the lock is
taken first and released last, once each, and is held without a break in
between: the effects are the lock, then the effects made under the lock, then
the unlock. Made under the lock are the read of the request body, the reads
of the registry and of the running table, the writes to the task and to the
running table, the cancel call, the write of the response and, in `runTask`,
the dispatch of the task body. -/
theorem lock_held_for_whole_handler (e : executor) (req : Option RunReq)
    (kreq : Option killReq) :
    ((e.runTask req).2
          = Event.lock :: (underLock false (e.runTask req).2 ++ [Event.unlock])
      ∧ Event.lock ∉ underLock false (e.runTask req).2
      ∧ Event.unlock ∉ underLock false (e.runTask req).2
      ∧ Event.readBody ∈ underLock false (e.runTask req).2
      ∧ (∀ p, req = some p →
          Event.regExists p.ExecutorHandler ∈ underLock false (e.runTask req).2)
      ∧ (∀ p, req = some p → e.data p.ExecutorHandler = none →
          Event.write (returnCall (some p) 500) ∈ underLock false (e.runTask req).2)
      ∧ (∀ p t, req = some p → e.data p.ExecutorHandler = some t →
          Event.regGet p.ExecutorHandler ∈ underLock false (e.runTask req).2
            ∧ Event.taskWrite t "Param" ∈ underLock false (e.runTask req).2
            ∧ Event.runSet p.JobID t ∈ underLock false (e.runTask req).2
            ∧ Event.goRun t ∈ underLock false (e.runTask req).2
            ∧ Event.write returnGeneral ∈ underLock false (e.runTask req).2))
    ∧ ((e.killTask kreq).2
          = Event.lock :: (underLock false (e.killTask kreq).2 ++ [Event.unlock])
      ∧ Event.lock ∉ underLock false (e.killTask kreq).2
      ∧ Event.unlock ∉ underLock false (e.killTask kreq).2
      ∧ Event.readBody ∈ underLock false (e.killTask kreq).2
      ∧ (∀ p, kreq = some p →
          Event.runIs p.JobID ∈ underLock false (e.killTask kreq).2)
      ∧ (∀ p, kreq = some p → e.runList p.JobID = none →
          Event.write (returnKill p 500) ∈ underLock false (e.killTask kreq).2)
      ∧ (∀ p t c, kreq = some p → e.runList p.JobID = some t →
          (e.heap t).Cancel = some c →
          Event.runGet p.JobID ∈ underLock false (e.killTask kreq).2
            ∧ Event.cancel c ∈ underLock false (e.killTask kreq).2
            ∧ Event.runDel p.JobID ∈ underLock false (e.killTask kreq).2
            ∧ Event.write returnGeneral ∈ underLock false (e.killTask kreq).2)) := by
  constructor
  · cases req with
    | none => simp [executor.runTask, underLock]
    | some param =>
      cases hd : e.data param.ExecutorHandler with
      | none =>
        simp [executor.runTask, executor.Exists, hd, underLock]
        intro p t hp ht
        subst hp
        simp [hd] at ht
      | some t =>
        simp [executor.runTask, executor.Exists, executor.Get, hd, underLock]
        intro p t1 hp ht
        subst hp
        simp [hd] at ht
        simp [ht]
  · cases kreq with
    | none => simp [executor.killTask, underLock]
    | some param =>
      cases hr : e.runList param.JobID with
      | none =>
        simp [executor.killTask, executor.IsRun, hr, underLock]
        intro p t c hp ht
        subst hp
        simp [hr] at ht
      | some t =>
        cases hc : (e.heap t).Cancel with
        | none =>
          simp [executor.killTask, executor.IsRun, executor.GetRunTask, hr, hc, underLock]
          intro p t1 c hp ht
          subst hp
          simp [hr] at ht
          subst ht
          simp [hc]
        | some c =>
          simp [executor.killTask, executor.IsRun, executor.GetRunTask, hr, hc, underLock]
          intro p t1 c1 hp ht hc1
          subst hp
          simp [hr] at ht
          subst ht
          simp [hc] at hc1
          simp [hc1]

/-- C10, amended, at concrete inputs: job 1001 is started with the registered
"demoTask", then killed; the effects made under the lock are all effects of
the handler but the lock and the unlock themselves. -/
theorem lock_held_for_whole_handler_witness :
    (demoExecutor.runTask (some start1001)).2
        = Event.lock :: (underLock false (demoExecutor.runTask (some start1001)).2
            ++ [Event.unlock])
      ∧ Event.runSet 1001 0 ∈ underLock false (demoExecutor.runTask (some start1001)).2
      ∧ Event.goRun 0 ∈ underLock false (demoExecutor.runTask (some start1001)).2
      ∧ Event.write returnGeneral
          ∈ underLock false (demoExecutor.runTask (some start1001)).2
      ∧ ((demoExecutor.runTask (some start1001)).1.killTask (some (killReq.mk 1001))).2
        = Event.lock :: (underLock false
            ((demoExecutor.runTask (some start1001)).1.killTask (some (killReq.mk 1001))).2
            ++ [Event.unlock])
      ∧ Event.cancel 0 ∈ underLock false
          ((demoExecutor.runTask (some start1001)).1.killTask (some (killReq.mk 1001))).2
      ∧ Event.runDel 1001 ∈ underLock false
          ((demoExecutor.runTask (some start1001)).1.killTask (some (killReq.mk 1001))).2 :=
  have w := lock_held_for_whole_handler (demoExecutor.runTask (some start1001)).1
    (some start1001) (some (killReq.mk 1001))
  have r := lock_held_for_whole_handler demoExecutor (some start1001) none
  have rr := r.1.2.2.2.2.2.2 start1001 0 rfl (by decide)
  have kk := w.2.2.2.2.2.2.2 (killReq.mk 1001) 0 0 rfl (by decide) (by decide)
  ⟨r.1.1, rr.2.2.1, rr.2.2.2.1, rr.2.2.2.2, w.2.1, kk.2.1, kk.2.2.1⟩

end xxl
